import Mathlib

/-
  Verification of the Stratus ATC X-Plane adapter plugin
  (src/adapters/xplane/src/stratus_plugin.c) against its specification.

  The plugin periodically samples simulator DataRefs, serializes them into a
  JSON telemetry document published by write-to-temp-then-rename, and is meant
  to drain a JSONL command log written by the client.  Numeric formatting of
  the fprintf calls is abstracted: the document is modelled as a JSON tree
  whose leaves carry the exact values the source passes to fprintf; rationals
  stand for the C doubles/floats and integers for the C ints.
-/

/-- A JSON value, as produced by WriteTelemetryJSON (lines 398-441 of
stratus_plugin.c).  Leaves record which C format produced them: jInt for %d
and %ld, jNum for the %.Nf floating formats, jStr for %s, jBool for the
textual true/false the source prints for flags. -/
inductive Json where
  | jInt : Int → Json
  | jNum : ℚ → Json
  | jStr : String → Json
  | jBool : Bool → Json
  | jObj : List (String × Json) → Json

/-- The DataRef handles of the plugin (lines 50-80): a handle that was not
found by XPLMFindDataRef is NULL, modelled as none; an available handle
carries the value the corresponding XPLMGetData call would return at this
tick. -/
structure DataRefs where
  dr_lat : Option ℚ
  dr_lon : Option ℚ
  dr_alt_msl : Option ℚ
  dr_alt_agl : Option ℚ
  dr_hdg_mag : Option ℚ
  dr_hdg_true : Option ℚ
  dr_pitch : Option ℚ
  dr_roll : Option ℚ
  dr_gnd_speed : Option ℚ
  dr_ias : Option ℚ
  dr_tas : Option ℚ
  dr_vs : Option ℚ
  dr_on_ground : Option Int
  dr_paused : Option Int
  dr_com1_freq : Option Int
  dr_com1_stdby : Option Int
  dr_com2_freq : Option Int
  dr_com2_stdby : Option Int
  dr_nav1_freq : Option Int
  dr_nav2_freq : Option Int
  dr_xpdr_code : Option Int
  dr_xpdr_mode : Option Int
  dr_ap_alt : Option ℚ
  dr_ap_hdg : Option ℚ
  dr_ap_vs : Option ℚ

/-- A DataRefs record in which every binding is unavailable (every
XPLMFindDataRef lookup failed). -/
def drNone : DataRefs :=
  ⟨none, none, none, none, none, none, none, none, none, none, none, none,
   none, none, none, none, none, none, none, none, none, none, none, none,
   none⟩

/-- The telemetry document written by WriteTelemetryJSON (lines 360-441):
each leaf is the DataRef value when the handle is non-NULL and the sentinel
0 (printed as false for the two flags) otherwise, in the exact field order of
the fprintf sequence. -/
def telemetryJson (now : Int) (acf_file : String) (dr : DataRefs) : Json :=
  .jObj [
    ("timestamp", .jInt now),
    ("simulator", .jStr "X-Plane"),
    ("aircraft", .jStr acf_file),
    ("position", .jObj [
      ("latitude", .jNum (dr.dr_lat.getD 0)),
      ("longitude", .jNum (dr.dr_lon.getD 0)),
      ("altitude_msl_m", .jNum (dr.dr_alt_msl.getD 0)),
      ("altitude_agl_m", .jNum (dr.dr_alt_agl.getD 0))]),
    ("orientation", .jObj [
      ("heading_mag", .jNum (dr.dr_hdg_mag.getD 0)),
      ("heading_true", .jNum (dr.dr_hdg_true.getD 0)),
      ("pitch", .jNum (dr.dr_pitch.getD 0)),
      ("roll", .jNum (dr.dr_roll.getD 0))]),
    ("speed", .jObj [
      ("ground_speed_mps", .jNum (dr.dr_gnd_speed.getD 0)),
      ("ias_kts", .jNum (dr.dr_ias.getD 0)),
      ("tas_mps", .jNum (dr.dr_tas.getD 0)),
      ("vertical_speed_fpm", .jNum (dr.dr_vs.getD 0))]),
    ("radios", .jObj [
      ("com1_hz", .jInt (dr.dr_com1_freq.getD 0)),
      ("com1_standby_hz", .jInt (dr.dr_com1_stdby.getD 0)),
      ("com2_hz", .jInt (dr.dr_com2_freq.getD 0)),
      ("com2_standby_hz", .jInt (dr.dr_com2_stdby.getD 0)),
      ("nav1_hz", .jInt (dr.dr_nav1_freq.getD 0)),
      ("nav2_hz", .jInt (dr.dr_nav2_freq.getD 0))]),
    ("transponder", .jObj [
      ("code", .jInt (dr.dr_xpdr_code.getD 0)),
      ("mode", .jInt (dr.dr_xpdr_mode.getD 0))]),
    ("autopilot", .jObj [
      ("altitude_ft", .jNum (dr.dr_ap_alt.getD 0)),
      ("heading", .jNum (dr.dr_ap_hdg.getD 0)),
      ("vs_fpm", .jNum (dr.dr_ap_vs.getD 0))]),
    ("state", .jObj [
      ("on_ground", .jBool (dr.dr_on_ground.getD 0 != 0)),
      ("paused", .jBool (dr.dr_paused.getD 0 != 0))])]

/-- Number of fprintf statements that emit the document (lines 398-441). -/
def numChunks : Nat := 44

/-- Content of one file as the bridge can leave it: a completed JSON
document, the first n of the 44 serialization chunks of a document still
being written (or truncated by an undetected write error), or arbitrary
pre-existing bytes. -/
inductive File where
  | doc : Json → File
  | chunks : Nat → File
  | raw : String → File

/-- The filesystem visible to the plugin and to concurrent readers: an
association list from path to file content. -/
def FS : Type := List (String × File)

/-- Read the content at a path (none when the file does not exist). -/
def fsGet (fs : FS) (p : String) : Option File :=
  (List.find? (fun e => e.1 == p) fs).map Prod.snd

/-- Remove the file at a path, as rename does to its source. -/
def fsDel (fs : FS) (p : String) : FS :=
  List.filter (fun e => e.1 != p) fs

/-- Replace (or create) the file at a path with the given content. -/
def fsSet (fs : FS) (p : String) (c : File) : FS :=
  (p, c) :: fsDel fs p

theorem fsGet_set_self (fs : FS) (p : String) (c : File) :
    fsGet (fsSet fs p c) p = some c := by
  simp [fsGet, fsSet, List.find?]

theorem find?_fsDel_ne (fs : FS) (p q : String) (h : q ≠ p) :
    List.find? (fun e => e.1 == q) (fsDel fs p) =
      List.find? (fun e => e.1 == q) fs := by
  induction fs with
  | nil => rfl
  | cons e t ih =>
    by_cases hp : e.1 = p
    · have hq : (e.1 == q) = false := by simp [hp, Ne.symm h]
      have hpq : (p == q) = false := by simp [Ne.symm h]
      simp only [fsDel, List.filter_cons] at ih ⊢
      simp [hp, List.find?, hq, ih, hpq]
    · by_cases hq : e.1 = q
      · simp only [fsDel, List.filter_cons] at ih ⊢
        simp [hp, hq, List.find?, h, Ne.symm h]
      · have hq' : (e.1 == q) = false := by simp [hq]
        simp only [fsDel, List.filter_cons] at ih ⊢
        simp [hp, List.find?, hq', ih, h, Ne.symm h]

theorem fsGet_set_ne (fs : FS) (p q : String) (c : File) (h : q ≠ p) :
    fsGet (fsSet fs p c) q = fsGet fs q := by
  have hp : (p == q) = false := by simp [Ne.symm h]
  simp only [fsGet, fsSet, List.find?, hp]
  rw [find?_fsDel_ne fs p q h]

/-- The side-location path: snprintf(tmp_file, ..., "%s.tmp", g_input_file)
at line 352. -/
def tmpName (pub : String) : String := pub ++ ".tmp"

theorem tmpName_ne (pub : String) : tmpName pub ≠ pub := by
  intro h
  have h2 := congrArg String.length h
  rw [tmpName, String.length_append] at h2
  have h4 : String.length ".tmp" = 4 := rfl
  omega

/-- Environment of one WriteTelemetryJSON call: whether the fopen of the
temp file succeeds (line 354), from which serialization chunk onward writes
are lost (disk full; the source never checks the fprintf and fclose results,
lines 398-443, so this is invisible to the code), the wall clock (line 361)
and the aircraft file name (line 395). -/
structure WriteEnv where
  openOk : Bool
  failFrom : Option Nat
  now : Int
  acf_file : String

/-- How many of the 44 serialization chunks actually reach the disk. -/
def effChunks (failFrom : Option Nat) : Nat :=
  match failFrom with
  | none => numChunks
  | some k => min k numChunks

/-- The content the temp file holds after fclose (line 443): the complete
document when every chunk was written, otherwise a truncated portion. -/
def writtenFile (env : WriteEnv) (dr : DataRefs) : File :=
  if effChunks env.failFrom = numChunks then
    File.doc (telemetryJson env.now env.acf_file dr)
  else
    File.chunks (effChunks env.failFrom)

/-- Embedding of WriteTelemetryJSON (lines 349-447): on fopen failure it
logs and returns leaving the filesystem alone; otherwise it writes the temp
file and renames it onto the publication path.  Returns the final filesystem
and the messages passed to LOG_ERROR. -/
def WriteTelemetryJSON (env : WriteEnv) (pub : String) (dr : DataRefs)
    (fs : FS) : FS × List String :=
  if env.openOk then
    (fsSet (fsDel fs (tmpName pub)) pub (writtenFile env dr), [])
  else
    (fs, ["Failed to open temp file for writing: " ++ tmpName pub])

/-- The filesystem states a concurrent reader can observe during one
WriteTelemetryJSON call, instant by instant: the initial state, the state
after fopen truncates the temp file and after each of the 44 fprintf
statements, the state after fclose, and the state after the rename
(line 446).  On fopen failure nothing is touched. -/
def writeTraceFS (env : WriteEnv) (pub : String) (dr : DataRefs)
    (fs : FS) : List FS :=
  if env.openOk then
    let tmp := tmpName pub
    let mids := (List.range (numChunks + 1)).map
      (fun i => fsSet fs tmp (File.chunks (min i (effChunks env.failFrom))))
    let closed := fsSet fs tmp (writtenFile env dr)
    (fs :: mids) ++ [closed, fsSet (fsDel fs tmp) pub (writtenFile env dr)]
  else
    [fs]

/-- One client command, as the spec's CommandRecord: a kind discriminator
and a parameter mapping. -/
structure CommandRecord where
  kind : String
  params : List (String × Int)
deriving DecidableEq, Repr

/-- The world a scheduler tick acts on: the shared filesystem (telemetry
file, command log), the simulator's state and the plugin's own log. -/
structure World where
  fs : FS
  sim : DataRefs
  plog : List String

/-- Embedding of ReadCommandsJSONL (lines 449-460): the function body is an
unimplemented TODO stub, so it reads nothing, changes nothing and delivers
no command to any applier. -/
def ReadCommandsJSONL (w : World) : World × List CommandRecord :=
  (w, [])

/-- The two phases of one scheduler tick. -/
inductive Phase where
  | sampling
  | draining
deriving DecidableEq, Repr

/-- Result of one flight-loop invocation: the new world, the commands
delivered to appliers, the phases that ran in order, and the value returned
to the host (1.0 = call again in one second, line 346). -/
structure TickResult where
  w : World
  cmds : List CommandRecord
  phases : List Phase
  next : ℚ

/-- Embedding of FlightLoopCallback (lines 335-347): it runs
WriteTelemetryJSON, then ReadCommandsJSONL, and returns 1.0.  The sampling
call handles its own failure internally (early return inside
WriteTelemetryJSON), so the drain call is unconditional. -/
def FlightLoopCallback (env : WriteEnv) (pub : String) (w : World) :
    TickResult :=
  let sampled := WriteTelemetryJSON env pub w.sim w.fs
  let w₁ : World := { w with fs := sampled.1, plog := w.plog ++ sampled.2 }
  let drained := ReadCommandsJSONL w₁
  { w := drained.1, cmds := drained.2,
    phases := [Phase.sampling] ++ [Phase.draining], next := 1 }

/-- State of the plugin's host-lifecycle boundary: the flight-loop
registrations that currently exist on the host side (by identifier, newest
first), the next fresh identifier, the global g_flight_loop_id handle
(line 83), whether the plugin's own log is open (g_log_fp, line 86), and the
scheduling interval last set per registration. -/
structure PluginState where
  liveLoops : List Nat
  nextId : Nat
  g_flight_loop_id : Option Nat
  logOpen : Bool
  intervals : List (Nat × ℚ)
deriving DecidableEq, Repr

/-- The state before XPluginStart ever ran. -/
def initState : PluginState :=
  ⟨[], 0, none, false, []⟩

/-- Host side of XPLMCreateFlightLoop: a fresh registration comes into
existence and its identifier is returned. -/
def XPLMCreateFlightLoop (s : PluginState) : PluginState × Nat :=
  ({ s with liveLoops := s.nextId :: s.liveLoops, nextId := s.nextId + 1 },
   s.nextId)

/-- Host side of XPLMDestroyFlightLoop: the registration ceases to exist
and is no longer scheduled. -/
def XPLMDestroyFlightLoop (s : PluginState) (id : Nat) : PluginState :=
  { s with liveLoops := s.liveLoops.erase id,
           intervals := s.intervals.filter (fun e => e.1 != id) }

/-- Host side of XPLMScheduleFlightLoop: records the interval at which the
given registration will fire (0 deactivates it). -/
def XPLMScheduleFlightLoop (s : PluginState) (id : Nat) (interval : ℚ) :
    PluginState :=
  { s with intervals := (id, interval) :: s.intervals.filter (fun e => e.1 != id) }

/-- The interval currently scheduled for a registration. -/
def lookupInterval (s : PluginState) (id : Nat) : Option ℚ :=
  (s.intervals.find? (fun e => e.1 == id)).map Prod.snd

/-- Embedding of XPluginStart (lines 161-187): opens the log (LogOpen is a
no-op when already open), unconditionally creates a flight loop and stores
its identifier in g_flight_loop_id. -/
def XPluginStart (s : PluginState) : PluginState :=
  let s₁ := { s with logOpen := true }
  let created := XPLMCreateFlightLoop s₁
  { created.1 with g_flight_loop_id := some created.2 }

/-- Embedding of XPluginStop (lines 189-196): destroys the registration
held in g_flight_loop_id if there is one, nulls the handle, and closes the
log (LogClose is a no-op when the log is not open). -/
def XPluginStop (s : PluginState) : PluginState :=
  let s₁ :=
    match s.g_flight_loop_id with
    | some id => { XPLMDestroyFlightLoop s id with g_flight_loop_id := none }
    | none => s
  { s₁ with logOpen := false }

/-- Embedding of XPluginEnable (lines 198-205): schedules the flight loop
to run every 1 second when a registration exists. -/
def XPluginEnable (s : PluginState) : PluginState :=
  match s.g_flight_loop_id with
  | some id => XPLMScheduleFlightLoop s id 1
  | none => s

/-- Embedding of XPluginDisable (lines 207-212): deactivates the flight
loop (interval 0) when a registration exists. -/
def XPluginDisable (s : PluginState) : PluginState :=
  match s.g_flight_loop_id with
  | some id => XPLMScheduleFlightLoop s id 0
  | none => s

/-- Modelled from the spec: the drain algorithm of CommandQueueReader
(spec 4.2) splits the log content into newline-terminated records; a line is
complete only when its terminating newline is present, and the trailing
newline-less fragment is kept.  Returns (complete lines, fragment). -/
def splitCompleteAux (cur : List Char) : List Char → List (List Char) × List Char
  | [] => ([], cur.reverse)
  | c :: cs =>
    if c = '\n' then
      let r := splitCompleteAux [] cs
      (cur.reverse :: r.1, r.2)
    else
      splitCompleteAux (c :: cur) cs

/-- Modelled from the spec: consume an expected literal character sequence,
returning the rest of the input. -/
def dropLit : List Char → List Char → Option (List Char)
  | [], cs => some cs
  | p :: ps, c :: cs => if c = p then dropLit ps cs else none
  | _ :: _, [] => none

/-- Modelled from the spec: read a JSON string body up to the closing
quote (records use plain names and kinds, no escapes). -/
def strBody : List Char → List Char → Option (String × List Char)
  | [], _ => none
  | c :: cs, acc =>
    if c = '\"' then some (String.mk acc.reverse, cs)
    else strBody cs (c :: acc)

/-- Modelled from the spec: read a run of decimal digits. -/
def readDigits : List Char → Nat → Nat × List Char
  | [], acc => (acc, [])
  | c :: cs, acc =>
    if c.isDigit then readDigits cs (acc * 10 + (c.toNat - 48))
    else (acc, c :: cs)

/-- Modelled from the spec: read a JSON integer (optional minus sign and at
least one digit). -/
def readInt : List Char → Option (Int × List Char)
  | '-' :: c :: cs =>
    if c.isDigit then
      let r := readDigits cs (c.toNat - 48)
      some (-(r.1 : Int), r.2)
    else none
  | c :: cs =>
    if c.isDigit then
      let r := readDigits cs (c.toNat - 48)
      some ((r.1 : Int), r.2)
    else none
  | [] => none

/-- Modelled from the spec: read the comma-separated "name":int pairs of a
parameter mapping, consuming the closing brace.  The fuel argument bounds
the recursion by the input length. -/
def readPairs : Nat → List Char → Option (List (String × Int) × List Char)
  | 0, _ => none
  | fuel + 1, '\"' :: cs =>
    match strBody cs [] with
    | some (name, ':' :: cs₂) =>
      match readInt cs₂ with
      | some (v, ',' :: cs₃) =>
        (readPairs fuel cs₃).map (fun r => ((name, v) :: r.1, r.2))
      | some (v, '\x7d' :: cs₃) => some ([(name, v)], cs₃)
      | _ => none
    | _ => none
  | _ + 1, _ => none

/-- Modelled from the spec: parse one complete log line as a CommandRecord.
The source's ReadCommandsJSONL (lines 449-460) is an unimplemented stub; the
spec (sections 4.2 and 6) defines records as newline-delimited JSON objects
carrying a command-kind discriminator and a parameter mapping, serialized by
the client without extra whitespace.  A line that does not have this shape
parses to none and is dropped. -/
def parseRecordLine (line : List Char) : Option CommandRecord := do
  let cs ← dropLit "\x7b\"kind\":\"".data line
  let (kind, cs₁) ← strBody cs []
  let cs₂ ← dropLit ",\"params\":\x7b".data cs₁
  match cs₂ with
  | '\x7d' :: cs₃ => if cs₃ = ['\x7d'] then some ⟨kind, []⟩ else none
  | _ =>
    let (ps, cs₃) ← readPairs cs₂.length cs₂
    if cs₃ = ['\x7d'] then some ⟨kind, ps⟩ else none

/-- Modelled from the spec: the drain() contract of CommandQueueReader
(spec 4.2).  Reads the whole log, returns the parses of the complete
(newline-terminated) lines in append order, and rewrites the log to hold
only the unterminated trailing fragment. -/
def drainSpec (log : String) : List CommandRecord × String :=
  let r := splitCompleteAux [] log.data
  (r.1.filterMap parseRecordLine, String.mk r.2)

/-- Concatenation of newline-terminated lines, as the client's appends
leave the log. -/
def joinLines (ls : List (List Char)) : List Char :=
  ls.foldr (fun l acc => l ++ '\n' :: acc) []

/-- The scenario record of spec section 8. -/
def cmdRecord₁ : CommandRecord :=
  ⟨"set_com1_frequency", [("hz", 118325000)]⟩

/-- The scenario line of spec section 8, without its terminating newline. -/
def cmdLine₁ : List Char :=
  "\x7b\"kind\":\"set_com1_frequency\",\"params\":\x7b\"hz\":118325000\x7d\x7d".data

example : parseRecordLine cmdLine₁ = some cmdRecord₁ := by decide
example : drainSpec (String.mk (cmdLine₁ ++ ['\n'])) = ([cmdRecord₁], "") := by decide

/-- The syntactic category of a JSON value. -/
inductive LKind where
  | int
  | num
  | str
  | bool
  | obj
deriving DecidableEq, Repr

/-- The category of one value. -/
def Json.kind : Json → LKind
  | .jInt _ => .int
  | .jNum _ => .num
  | .jStr _ => .str
  | .jBool _ => .bool
  | .jObj _ => .obj

/-- The named fields of an object together with the category of each
value (empty for non-objects). -/
def Json.fields : Json → List (String × LKind)
  | .jObj fs => fs.map (fun e => (e.1, e.2.kind))
  | _ => []

/-- Look up a named field of an object. -/
def Json.getField : Json → String → Option Json
  | .jObj fs, name => (fs.find? (fun e => e.1 == name)).map Prod.snd
  | _, _ => none

/-- Look up a leaf inside a named group of the document. -/
def leafAt (j : Json) (g f : String) : Option Json :=
  (j.getField g).bind (fun o => o.getField f)

/-- Claim C5: on every scheduler tick the sampling phase runs before the
draining phase, and a sampling failure (fopen of the temp file failed,
env.openOk = false) does not prevent the draining phase from running in the
same tick: the phase list of every tick is [sampling, draining]. -/
theorem C5_sampling_before_draining (env : WriteEnv) (pub : String)
    (w : World) :
    (FlightLoopCallback env pub w).phases = [Phase.sampling, Phase.draining] ∧
    (FlightLoopCallback ⟨false, env.failFrom, env.now, env.acf_file⟩ pub
        w).phases = [Phase.sampling, Phase.draining] :=
  ⟨rfl, rfl⟩

/-- Claim C6: every successfully published document has exactly the
top-level fields timestamp (integer), simulator (string), aircraft (string)
and the groups position, orientation, speed, radios, transponder, autopilot
and state, each group holding its fixed set of named numeric or boolean
leaves. -/
theorem C6_document_schema (t : Int) (acf : String) (dr : DataRefs) :
    (telemetryJson t acf dr).fields =
      [("timestamp", .int), ("simulator", .str), ("aircraft", .str),
       ("position", .obj), ("orientation", .obj), ("speed", .obj),
       ("radios", .obj), ("transponder", .obj), ("autopilot", .obj),
       ("state", .obj)] ∧
    ((telemetryJson t acf dr).getField "position").map Json.fields =
      some [("latitude", .num), ("longitude", .num),
            ("altitude_msl_m", .num), ("altitude_agl_m", .num)] ∧
    ((telemetryJson t acf dr).getField "orientation").map Json.fields =
      some [("heading_mag", .num), ("heading_true", .num),
            ("pitch", .num), ("roll", .num)] ∧
    ((telemetryJson t acf dr).getField "speed").map Json.fields =
      some [("ground_speed_mps", .num), ("ias_kts", .num),
            ("tas_mps", .num), ("vertical_speed_fpm", .num)] ∧
    ((telemetryJson t acf dr).getField "radios").map Json.fields =
      some [("com1_hz", .int), ("com1_standby_hz", .int), ("com2_hz", .int),
            ("com2_standby_hz", .int), ("nav1_hz", .int), ("nav2_hz", .int)] ∧
    ((telemetryJson t acf dr).getField "transponder").map Json.fields =
      some [("code", .int), ("mode", .int)] ∧
    ((telemetryJson t acf dr).getField "autopilot").map Json.fields =
      some [("altitude_ft", .num), ("heading", .num), ("vs_fpm", .num)] ∧
    ((telemetryJson t acf dr).getField "state").map Json.fields =
      some [("on_ground", .bool), ("paused", .bool)] :=
  ⟨rfl, rfl, rfl, rfl, rfl, rfl, rfl, rfl⟩

/-- Claim C7: every snapshot field whose DataRef binding is unavailable at
sampling time is still present in the published document, carrying the
sentinel default (0 for numeric fields, false for the boolean fields)
rather than being omitted. -/
theorem C7_sentinel_defaults (t : Int) (acf : String) (dr : DataRefs) :
    (dr.dr_lat = none →
      leafAt (telemetryJson t acf dr) "position" "latitude" =
        some (.jNum 0)) ∧
    (dr.dr_lon = none →
      leafAt (telemetryJson t acf dr) "position" "longitude" =
        some (.jNum 0)) ∧
    (dr.dr_alt_msl = none →
      leafAt (telemetryJson t acf dr) "position" "altitude_msl_m" =
        some (.jNum 0)) ∧
    (dr.dr_alt_agl = none →
      leafAt (telemetryJson t acf dr) "position" "altitude_agl_m" =
        some (.jNum 0)) ∧
    (dr.dr_hdg_mag = none →
      leafAt (telemetryJson t acf dr) "orientation" "heading_mag" =
        some (.jNum 0)) ∧
    (dr.dr_hdg_true = none →
      leafAt (telemetryJson t acf dr) "orientation" "heading_true" =
        some (.jNum 0)) ∧
    (dr.dr_pitch = none →
      leafAt (telemetryJson t acf dr) "orientation" "pitch" =
        some (.jNum 0)) ∧
    (dr.dr_roll = none →
      leafAt (telemetryJson t acf dr) "orientation" "roll" =
        some (.jNum 0)) ∧
    (dr.dr_gnd_speed = none →
      leafAt (telemetryJson t acf dr) "speed" "ground_speed_mps" =
        some (.jNum 0)) ∧
    (dr.dr_ias = none →
      leafAt (telemetryJson t acf dr) "speed" "ias_kts" =
        some (.jNum 0)) ∧
    (dr.dr_tas = none →
      leafAt (telemetryJson t acf dr) "speed" "tas_mps" =
        some (.jNum 0)) ∧
    (dr.dr_vs = none →
      leafAt (telemetryJson t acf dr) "speed" "vertical_speed_fpm" =
        some (.jNum 0)) ∧
    (dr.dr_com1_freq = none →
      leafAt (telemetryJson t acf dr) "radios" "com1_hz" =
        some (.jInt 0)) ∧
    (dr.dr_com1_stdby = none →
      leafAt (telemetryJson t acf dr) "radios" "com1_standby_hz" =
        some (.jInt 0)) ∧
    (dr.dr_com2_freq = none →
      leafAt (telemetryJson t acf dr) "radios" "com2_hz" =
        some (.jInt 0)) ∧
    (dr.dr_com2_stdby = none →
      leafAt (telemetryJson t acf dr) "radios" "com2_standby_hz" =
        some (.jInt 0)) ∧
    (dr.dr_nav1_freq = none →
      leafAt (telemetryJson t acf dr) "radios" "nav1_hz" =
        some (.jInt 0)) ∧
    (dr.dr_nav2_freq = none →
      leafAt (telemetryJson t acf dr) "radios" "nav2_hz" =
        some (.jInt 0)) ∧
    (dr.dr_xpdr_code = none →
      leafAt (telemetryJson t acf dr) "transponder" "code" =
        some (.jInt 0)) ∧
    (dr.dr_xpdr_mode = none →
      leafAt (telemetryJson t acf dr) "transponder" "mode" =
        some (.jInt 0)) ∧
    (dr.dr_ap_alt = none →
      leafAt (telemetryJson t acf dr) "autopilot" "altitude_ft" =
        some (.jNum 0)) ∧
    (dr.dr_ap_hdg = none →
      leafAt (telemetryJson t acf dr) "autopilot" "heading" =
        some (.jNum 0)) ∧
    (dr.dr_ap_vs = none →
      leafAt (telemetryJson t acf dr) "autopilot" "vs_fpm" =
        some (.jNum 0)) ∧
    (dr.dr_on_ground = none →
      leafAt (telemetryJson t acf dr) "state" "on_ground" =
        some (.jBool false)) ∧
    (dr.dr_paused = none →
      leafAt (telemetryJson t acf dr) "state" "paused" =
        some (.jBool false)) := by
  and_intros <;> (intro h; simp only [telemetryJson, h]; rfl)

/-- Claim C7 witness: with every binding unavailable, the published
document still carries position.latitude = 0 and state.on_ground =
false. -/
theorem C7_witness :
    leafAt (telemetryJson 0 "" drNone) "position" "latitude" =
      some (.jNum 0) ∧
    leafAt (telemetryJson 0 "" drNone) "state" "on_ground" =
      some (.jBool false) :=
  ⟨(C7_sentinel_defaults 0 "" drNone).1 rfl,
   (C7_sentinel_defaults 0 "" drNone).2.2.2.2.2.2.2.2.2.2.2.2.2.2.2.2.2.2.2.2.2.2.2.1 rfl⟩

/-- Claim C10: the command-drain step of a tick has no observable effect:
it leaves the filesystem (hence the command log), the simulator state and
the plugin log untouched and delivers no command to any applier; within a
tick, the world after the drain step is exactly the world the sampling
step produced. -/
theorem C10_drain_no_effect (w : World) :
    (ReadCommandsJSONL w).1.fs = w.fs ∧
    (ReadCommandsJSONL w).1.sim = w.sim ∧
    (ReadCommandsJSONL w).1.plog = w.plog ∧
    (ReadCommandsJSONL w).2 = [] ∧
    (∀ env pub, (FlightLoopCallback env pub w).cmds = [] ∧
      (FlightLoopCallback env pub w).w.sim = w.sim ∧
      (FlightLoopCallback env pub w).w.fs =
        (WriteTelemetryJSON env pub w.sim w.fs).1 ∧
      (FlightLoopCallback env pub w).w.plog =
        w.plog ++ (WriteTelemetryJSON env pub w.sim w.fs).2) :=
  ⟨rfl, rfl, rfl, rfl, fun _ _ => ⟨rfl, rfl, rfl, rfl⟩⟩

/-- Claim C8 counterexample: starting twice without an intervening stop and
then stopping leaves the registration created by the first start alive on
the host side: XPluginStart (lines 161-187) creates a flight loop
unconditionally and overwrites g_flight_loop_id, so XPluginStop only
destroys the second registration and the first is leaked.  A double start
is therefore not a defensive no-op and a registration created by start can
survive a stop. -/
theorem C8_counterexample :
    (XPluginStop (XPluginStart (XPluginStart initState))).liveLoops = [0] ∧
    (XPluginStop (XPluginStart (XPluginStart initState))).liveLoops ≠ [] := by
  decide

/-- Claim C8 amended: a stop without a prior start is a defensive no-op
(apart from closing the plugin's own log), and across a single start/stop
cycle the registration created by that start is destroyed, so nothing is
leaked; but a second start without an intervening stop is not a no-op: it
creates a fresh registration and abandons the previous one, which survives
a subsequent stop. -/
theorem C8_lifecycle (s : PluginState) (h : s.g_flight_loop_id = none) :
    XPluginStop s = { s with logOpen := false } ∧
    (∀ s' : PluginState,
      (XPluginStop (XPluginStart s')).liveLoops = s'.liveLoops ∧
      (XPluginStop (XPluginStart s')).g_flight_loop_id = none) := by
  constructor
  · simp [XPluginStop, h]
  · intro s'
    constructor
    · simp [XPluginStart, XPluginStop, XPLMCreateFlightLoop,
            XPLMDestroyFlightLoop, List.erase_cons_head]
    · simp [XPluginStart, XPluginStop, XPLMCreateFlightLoop,
            XPLMDestroyFlightLoop]

/-- Claim C8 witness: at the initial state, a stop without a prior start
changes nothing but the log flag, and one start/stop cycle leaves no
registration. -/
theorem C8_witness :
    XPluginStop initState = { initState with logOpen := false } ∧
    (XPluginStop (XPluginStart initState)).liveLoops = [] := by
  exact ⟨(C8_lifecycle initState rfl).1,
         ((C8_lifecycle initState rfl).2 initState).1⟩

/-- Claim C9: the periodic tick trigger is scheduled through the host's
XPLMScheduleFlightLoop, whose interval argument makes the nominal period
configurable; the bridge uses 1 second: XPluginEnable (line 201) schedules
the registered flight loop at a 1-second interval, and every
FlightLoopCallback invocation returns 1.0 (line 346), rescheduling itself
1 second later. -/
theorem C9_period_one_second (s : PluginState) (id : Nat)
    (h : s.g_flight_loop_id = some id) :
    lookupInterval (XPluginEnable s) id = some 1 ∧
    (∀ env pub w, (FlightLoopCallback env pub w).next = 1) := by
  constructor
  · simp [XPluginEnable, h, XPLMScheduleFlightLoop, lookupInterval,
          List.find?]
  · intro env pub w
    rfl

/-- Claim C9 witness: after a start from the initial state, enabling
schedules registration 0 at a 1-second interval. -/
theorem C9_witness :
    lookupInterval (XPluginEnable (XPluginStart initState)) 0 = some 1 :=
  (C9_period_one_second (XPluginStart initState) 0 rfl).1

/-- Claim C1 amended: on a publish whose side-location write succeeds in
full, the complete document goes to the temp path, which differs from the
publication path, and reaches the publication path only through the final
rename: at every instant of the write trace the publication path holds
either its previous content or the new complete document, and after the
call it holds the new complete document, which is also the last state of
the trace.  (The original unconditional claim fails when a write to the
already-created side location is lost: see the counterexample.) -/
theorem C1_publish_atomic (env : WriteEnv) (pub : String) (dr : DataRefs)
    (fs : FS) (hopen : env.openOk = true) (hfail : env.failFrom = none) :
    tmpName pub ≠ pub ∧
    (∀ s ∈ writeTraceFS env pub dr fs,
      fsGet s pub = fsGet fs pub ∨
      fsGet s pub = some (File.doc (telemetryJson env.now env.acf_file dr))) ∧
    fsGet (WriteTelemetryJSON env pub dr fs).1 pub =
      some (File.doc (telemetryJson env.now env.acf_file dr)) ∧
    (writeTraceFS env pub dr fs).getLast? =
      some (WriteTelemetryJSON env pub dr fs).1 := by
  have hne : pub ≠ tmpName pub := Ne.symm (tmpName_ne pub)
  have hwf : writtenFile env dr =
      File.doc (telemetryJson env.now env.acf_file dr) := by
    simp [writtenFile, effChunks, hfail]
  refine ⟨tmpName_ne pub, ?_, ?_, ?_⟩
  · intro s hs
    simp only [writeTraceFS, hopen, if_true, List.mem_cons, List.mem_append,
      List.mem_map, List.mem_range, List.mem_singleton,
      List.not_mem_nil, or_false] at hs
    rcases hs with (rfl | ⟨i, -, rfl⟩) | rfl | rfl
    · left
      rfl
    · left
      exact fsGet_set_ne fs (tmpName pub) pub _ hne
    · left
      exact fsGet_set_ne fs (tmpName pub) pub _ hne
    · right
      rw [hwf]
      exact fsGet_set_self (fsDel fs (tmpName pub)) pub _
  · simp [WriteTelemetryJSON, hopen, hwf, fsGet_set_self]
  · simp only [writeTraceFS, WriteTelemetryJSON, hopen, if_true]
    rw [List.getLast?_append_cons]
    rfl

/-- Claim C1 witness: a concrete successful publish over an empty
filesystem leaves the complete document at the publication path. -/
theorem C1_witness :
    fsGet (WriteTelemetryJSON ⟨true, none, 1000, "B738"⟩ "simAPI_input.json"
        drNone []).1 "simAPI_input.json" =
      some (File.doc (telemetryJson 1000 "B738" drNone)) :=
  (C1_publish_atomic ⟨true, none, 1000, "B738"⟩ "simAPI_input.json" drNone []
    rfl rfl).2.2.1

/-- The write environment of the C2 counterexample: the temp file opens,
but the disk fails after the first fprintf chunk. -/
def envFail : WriteEnv := ⟨true, some 1, 1000, "B738"⟩

/-- A previously published complete document. -/
def oldDoc : Json := telemetryJson 999 "B738" drNone

/-- A filesystem whose publication path holds the previous document. -/
def fsOld : FS := [("simAPI_input.json", File.doc oldDoc)]

/-- Claim C2 counterexample: when writing the already-created side location
fails (disk full after the first chunk), the code does not abandon the
publish: the fprintf and fclose results are ignored (lines 398-443) and the
rename at line 446 still runs, so the publication path ends up holding a
truncated one-chunk file that is neither the previous document nor a
complete new document, and the previous content is destroyed — refuting
the claim that such a publish is abandoned, leaves the publication path
unchanged and never places a partial document there. -/
theorem C2_counterexample :
    fsGet (WriteTelemetryJSON envFail "simAPI_input.json" drNone fsOld).1
        "simAPI_input.json" = some (File.chunks 1) ∧
    some (File.chunks 1) ≠ some (File.doc oldDoc) ∧
    some (File.chunks 1) ≠
      some (File.doc (telemetryJson 1000 "B738" drNone)) ∧
    fsGet fsOld "simAPI_input.json" = some (File.doc oldDoc) := by
  refine ⟨rfl, ?_, ?_, rfl⟩ <;> simp

/-- Claim C2 amended: only a failure to create the side location (fopen
returning NULL, line 354) abandons the publish: then nothing is renamed,
the filesystem — in particular the previous content of the publication
path — is left unchanged, and the failure is logged via LOG_ERROR rather
than reported to the caller (WriteTelemetryJSON returns void).  A failure
while writing the already-created side location is not detected, and the
rename places the truncated file at the publication path. -/
theorem C2_failed_write (env : WriteEnv) (pub : String) (dr : DataRefs)
    (fs : FS) :
    (env.openOk = false →
      (WriteTelemetryJSON env pub dr fs).1 = fs ∧
      writeTraceFS env pub dr fs = [fs] ∧
      (WriteTelemetryJSON env pub dr fs).2 =
        ["Failed to open temp file for writing: " ++ tmpName pub]) ∧
    (∀ k : Nat, env.openOk = true → env.failFrom = some k → k < numChunks →
      fsGet (WriteTelemetryJSON env pub dr fs).1 pub =
        some (File.chunks k)) := by
  constructor
  · intro h
    refine ⟨?_, ?_, ?_⟩ <;> simp [WriteTelemetryJSON, writeTraceFS, h]
  · intro k hopen hk hlt
    have he : effChunks env.failFrom = k := by
      simp [effChunks, hk, Nat.min_eq_left (Nat.le_of_lt hlt)]
    have hw : writtenFile env dr = File.chunks k := by
      rw [writtenFile, he, if_neg (by omega)]
    simp [WriteTelemetryJSON, hopen, hw, fsGet_set_self]

/-- Claim C2 witness: a publish whose temp file cannot be opened leaves an
empty filesystem empty, and the concrete disk-full publish of the
counterexample environment leaves the one-chunk truncation at the
publication path. -/
theorem C2_witness :
    (WriteTelemetryJSON ⟨false, none, 0, ""⟩ "p" drNone []).1 = [] ∧
    fsGet (WriteTelemetryJSON envFail "simAPI_input.json" drNone fsOld).1
        "simAPI_input.json" = some (File.chunks 1) :=
  ⟨((C2_failed_write ⟨false, none, 0, ""⟩ "p" drNone []).1 rfl).1,
   (C2_failed_write envFail "simAPI_input.json" drNone fsOld).2 1 rfl rfl
     (by decide)⟩

/-- A write environment in which the temp file opens but the disk fails
after the second fprintf chunk. -/
def envFail₂ : WriteEnv := ⟨true, some 2, 1001, "B738"⟩

/-- Claim C1 counterexample: the original claim promises that at every
instant of every publish the publication path holds either the previous
complete document or the new complete document, never a partially written
one.  On a publish whose writes are lost from the second chunk on, the
last instant of the write trace — the state after the unconditional rename
at line 446 — has the publication path holding a two-chunk truncation that
is neither the previous document nor a complete new document. -/
theorem C1_counterexample :
    (writeTraceFS envFail₂ "simAPI_input.json" drNone fsOld).getLast? =
      some (WriteTelemetryJSON envFail₂ "simAPI_input.json" drNone fsOld).1 ∧
    fsGet (WriteTelemetryJSON envFail₂ "simAPI_input.json" drNone fsOld).1
        "simAPI_input.json" = some (File.chunks 2) ∧
    some (File.chunks 2) ≠ some (File.doc oldDoc) ∧
    some (File.chunks 2) ≠
      some (File.doc (telemetryJson 1001 "B738" drNone)) ∧
    fsGet fsOld "simAPI_input.json" = some (File.doc oldDoc) := by
  refine ⟨rfl, rfl, ?_, ?_, rfl⟩ <;> simp

theorem splitCompleteAux_no_nl :
    ∀ (l : List Char), '\n' ∉ l → ∀ (cur rest : List Char),
      splitCompleteAux cur (l ++ rest) =
        splitCompleteAux (l.reverse ++ cur) rest
  | [], _, cur, rest => by simp
  | c :: l, hl, cur, rest => by
    have hc : ¬ c = '\n' := fun h => hl (by simp [h])
    have hl' : '\n' ∉ l := fun h => hl (List.mem_cons_of_mem c h)
    simp only [List.cons_append, splitCompleteAux, if_neg hc]
    show splitCompleteAux (c :: cur) (l ++ rest) = _
    rw [splitCompleteAux_no_nl l hl' (c :: cur) rest]
    simp

theorem splitCompleteAux_all_frag (frag : List Char) (hf : '\n' ∉ frag)
    (cur : List Char) :
    splitCompleteAux cur frag = ([], cur.reverse ++ frag) := by
  have h := splitCompleteAux_no_nl frag hf cur []
  rw [List.append_nil] at h
  rw [h]
  simp [splitCompleteAux, List.reverse_append]

theorem splitCompleteAux_join :
    ∀ (ls : List (List Char)), (∀ l ∈ ls, '\n' ∉ l) → ∀ (rest : List Char),
      splitCompleteAux [] (joinLines ls ++ rest) =
        (ls ++ (splitCompleteAux [] rest).1, (splitCompleteAux [] rest).2)
  | [], _, rest => by simp [joinLines]
  | l :: ls, h, rest => by
    have hl : '\n' ∉ l := h l (by simp)
    have hls : ∀ x ∈ ls, '\n' ∉ x := fun x hx => h x (by simp [hx])
    have hjoin : joinLines (l :: ls) ++ rest =
        l ++ ('\n' :: (joinLines ls ++ rest)) := by
      show (l ++ '\n' :: joinLines ls) ++ rest = _
      simp
    rw [hjoin, splitCompleteAux_no_nl l hl [] _, List.append_nil]
    simp only [splitCompleteAux, if_pos rfl]
    rw [splitCompleteAux_join ls hls rest]
    simp

/-- Claim C4 (spec-modelled: the source's ReadCommandsJSONL is an
unimplemented stub, so drainSpec models the drain() contract of spec
section 4.2): when the command log consists of complete newline-terminated
lines followed by an unterminated trailing fragment, a drain yields the
parses of the complete lines in append order and rewrites the log to hold
exactly the fragment, consuming nothing else. -/
theorem C4_unterminated_tail (ls : List (List Char)) (h : ∀ l ∈ ls, '\n' ∉ l)
    (frag : List Char) (hf : '\n' ∉ frag) (hne : frag ≠ []) :
    drainSpec (String.mk (joinLines ls ++ frag)) =
      (ls.filterMap parseRecordLine, String.mk frag) := by
  simp only [drainSpec]
  rw [splitCompleteAux_join ls h frag, splitCompleteAux_all_frag frag hf []]
  simp

/-- Claim C4 witness: a log holding one complete scenario line and the
unterminated fragment of a partially appended record drains to the one
parsed record and leaves exactly the fragment. -/
theorem C4_witness :
    drainSpec (String.mk (joinLines [cmdLine₁] ++ "\x7b\"ki".data)) =
      ([cmdRecord₁], String.mk "\x7b\"ki".data) := by
  have h := C4_unterminated_tail [cmdLine₁] (by decide) "\x7b\"ki".data
    (by decide) (by decide)
  rw [h]
  have hp : parseRecordLine cmdLine₁ = some cmdRecord₁ := by decide
  simp [hp]

/-- Claim C3 (spec-modelled: the source's ReadCommandsJSONL is an
unimplemented stub, so drainSpec models the drain() contract of spec
section 4.2): for every complete CommandRecord appended to the command
log — any serialized line l that parses to a record r, appended with its
terminating newline after any sequence of complete lines — the next drain
yields the records of the earlier lines in order followed by exactly that
one record r, and the log file is left empty. -/
theorem C3_append_then_drain (ls : List (List Char))
    (h : ∀ x ∈ ls, '\n' ∉ x) (l : List Char) (hl : '\n' ∉ l)
    (r : CommandRecord) (hr : parseRecordLine l = some r) :
    drainSpec (String.mk (joinLines ls ++ (l ++ ['\n']))) =
      (ls.filterMap parseRecordLine ++ [r], "") := by
  have hsplit : splitCompleteAux [] (l ++ ['\n']) = ([l], []) := by
    have h0 := splitCompleteAux_no_nl l hl [] ['\n']
    rw [List.append_nil] at h0
    rw [h0]
    simp [splitCompleteAux]
  simp only [drainSpec]
  rw [splitCompleteAux_join ls h _, hsplit]
  simp [List.filterMap_append, hr]

/-- Claim C3 witness: appending the scenario's set_com1_frequency record
(hz = 118325000) to an empty log and draining yields exactly that record,
and the log file is empty afterwards. -/
theorem C3_witness :
    drainSpec (String.mk (joinLines [] ++ (cmdLine₁ ++ ['\n']))) =
      ([cmdRecord₁], "") := by
  have h := C3_append_then_drain [] (by simp) cmdLine₁ (by decide) cmdRecord₁
    (by decide)
  simpa using h
